import Mathlib

/-!
Verification of the TUS resumable-upload protocol handlers in
`rest_framework_tus/views.py` (drf-tus), as a shallow embedding.

The repository ships only `views.py`; the modules it imports
(`models.py`, `utils.py`, `states.py`, `settings.py`, the package
`__init__`) are not available.  Those pieces are modelled from the
specification, each marked `Modelled from the spec:` in its doc comment.
Everything else follows the Python of `views.py` line by line.
-/

namespace DrfTus

/-- Modelled from the spec: the upload states of `states.py` (not in src).
§3 lists INITIAL, RECEIVING, SAVING, DONE, TERMINATED. -/
inductive UState where
  | initial
  | receiving
  | saving
  | done
  | terminated
deriving DecidableEq, Repr

/-- The Upload Record (`models.py`, fields as used by `views.py`):
`upload_offset` (bytes persisted), `upload_length` (declared length, `-1`
when unknown/deferred as in the Django model default used by
`TusCreateMixin.create`), `state`, the persistent byte store written by
`write_data`, and the optional expiry timestamp (modelled as a `Nat`
instant). -/
structure Upload where
  upload_offset : Nat
  upload_length : Int
  state : UState
  store : List Nat
  expires : Option Nat
deriving DecidableEq, Repr

/-- Modelled from the spec: the advertised checksum-algorithm set
`tus_api_checksum_algorithms` (package `__init__`, not in src).  §4.3 has a
configurable explicit set; the glossary names SHA-1 as the example
algorithm and Scenario 5 treats "md5" as not advertised. -/
def tus_api_checksum_algorithms : List String := ["sha1"]

/-- Modelled from the spec: `Upload.start_receiving` (`models.py`, not in
src): the `beginReceiving` transition of §4.1, INITIAL → RECEIVING.
`views.py` only calls it when `state == INITIAL` and saves right after. -/
def start_receiving (u : Upload) : Upload :=
  { u with state := UState.receiving }

/-- Modelled from the spec: `Upload.write_data(bytes, chunk_size)`
(`models.py`, not in src), the Append Engine of §4.4 together with
`commitChunk` of §4.1: on success it appends the staged bytes to the
persistent byte store, advances the offset by the chunk size handed over
by `views.py` (which reads it from `Content-Length`, §9), and moves to
DONE when the new offset equals the declared length, else RECEIVING; on
write failure it raises, leaving offset, store and state at their
pre-chunk values.  Failure is injected through the `fails` flag. -/
def write_data (u : Upload) (bytes : List Nat) (chunk_size : Nat)
    (fails : Bool) : Except String Upload :=
  if fails then Except.error "write failure"
  else
    let newOffset := u.upload_offset + chunk_size
    Except.ok { u with
      store := u.store ++ bytes
      upload_offset := newOffset
      state := if (newOffset : Int) = u.upload_length
               then UState.done else UState.receiving }

/-- A decoded Patch request, the typed fields `views.py` reads off the
request object: `Content-Type` (the `.get(..., '')` default makes a
missing header the empty string), the client-supplied `Upload-Offset`,
the raw body, the optional `(algorithm, digest)` checksum pair and the
optional `Content-Length`.  `stagingFails` injects the exception of
`write_chunk_to_temp_file` (staging I/O failure, §4.2) and `writeFails`
the exception of `write_data` (append failure, §4.4). -/
structure PatchRequest where
  contentType : String
  uploadOffset : Nat
  body : List Nat
  checksum : Option (String × String)
  contentLength : Option Nat
  stagingFails : Bool
  writeFails : Bool
deriving DecidableEq, Repr

/-- Outcome of one Patch request: HTTP status, the Upload Record as
persisted when the handler returns, whether a staged chunk file was
created, whether it still exists afterwards, whether the commit
(`write_data`) was attempted, and whether the `signals.received`
notification was fired. -/
structure PatchResult where
  status : Nat
  upload : Upload
  chunkStaged : Bool
  chunkFileRemains : Bool
  writeAttempted : Bool
  signalFired : Bool
deriving DecidableEq, Repr

/-- `TusPatchMixin.validate_content_type` (views.py:186-193): reads the
`Content-Type` header (empty string when missing) and builds a 400
response unless it equals the literal
`application/upload_offset+octet-stream`; returns the status of the
response it builds, `none` when the header is valid.  Note the caller in
`partial_update` discards this return value. -/
def validate_content_type (req : PatchRequest) : Option Nat :=
  if req.contentType = "" ∨ req.contentType ≠ "application/upload_offset+octet-stream"
  then some 400 else none

/-- The tail of `TusPatchMixin.partial_update` after the checksum block
(views.py:164-184): commit via `write_data`, turning a raised exception
into 400, with the `finally` removing the chunk file on both exits; on
success answer 204, firing `signals.received` exactly when
`upload_length == upload_offset` (views.py:177-179). -/
def commit_chunk (upload : Upload) (chunk : List Nat) (chunk_size : Nat)
    (writeFails : Bool) : PatchResult :=
  match write_data upload chunk chunk_size writeFails with
  | Except.error _ =>
    { status := 400, upload := upload, chunkStaged := true,
      chunkFileRemains := false, writeAttempted := true,
      signalFired := false }
  | Except.ok upload' =>
    { status := 204, upload := upload', chunkStaged := true,
      chunkFileRemains := false, writeAttempted := true,
      signalFired := decide (upload'.upload_length = (upload'.upload_offset : Int)) }

/-- `TusPatchMixin.partial_update` (views.py:124-184), step by step:
call `validate_content_type` (its returned response is dropped on the
floor, faithfully reproduced here); compare the client offset with the
recorded one and raise `Conflict` (409) on mismatch; ensure a temp file;
on INITIAL run `start_receiving` and save; stage the body with
`write_chunk_to_temp_file` (a raised exception becomes 400); check the
checksum header — unsupported algorithm removes the chunk file and
returns 400, a digest mismatch removes it and returns 460; then hand
over to `commit_chunk` with `chunk_size = Content-Length` defaulting to
102400.  `checksumOk` stands for `is_correct_checksum_for_file`
(`utils.py`, not in src). -/
def partial_update (checksumOk : String → String → List Nat → Bool)
    (req : PatchRequest) (upload : Upload) : PatchResult :=
  let _ := validate_content_type req
  if req.uploadOffset ≠ upload.upload_offset then
    { status := 409, upload := upload, chunkStaged := false,
      chunkFileRemains := false, writeAttempted := false, signalFired := false }
  else
    let upload := if upload.state = UState.initial
                  then start_receiving upload else upload
    if req.stagingFails then
      { status := 400, upload := upload, chunkStaged := false,
        chunkFileRemains := false, writeAttempted := false, signalFired := false }
    else
      let chunk := req.body
      let chunk_size := req.contentLength.getD 102400
      match req.checksum with
      | some (alg, digest) =>
        if alg ∉ tus_api_checksum_algorithms then
          { status := 400, upload := upload, chunkStaged := true,
            chunkFileRemains := false, writeAttempted := false,
            signalFired := false }
        else if ¬ checksumOk alg digest chunk then
          { status := 460, upload := upload, chunkStaged := true,
            chunkFileRemains := false, writeAttempted := false,
            signalFired := false }
        else
          commit_chunk upload chunk chunk_size req.writeFails
      | none =>
        commit_chunk upload chunk chunk_size req.writeFails

/-- A decoded Create request: the declared `Upload-Length` (absent made
`-1` by the `getattr(..., -1)` default), the `Upload-Defer-Length` value
(absent made `-1` likewise), and the metadata mapping. -/
structure CreateRequest where
  upload_length : Option Int
  upload_defer_length : Option Int
  upload_metadata : List (String × String)
deriving DecidableEq, Repr

/-- Outcome of a Create request: HTTP status and the Upload Record
created in the store, `none` when nothing was created. -/
structure CreateResult where
  status : Nat
  created : Option Upload
deriving DecidableEq, Repr

/-- `TusCreateMixin.create` (views.py:80-117): read `upload_length`
(default `-1`); reject with 413 when it exceeds `TUS_MAX_FILE_SIZE`
(here the `maxSize` parameter, the configured maximum of `settings.py`);
when it is zero or negative (Python `not upload_length or upload_length
< 0`) require `Upload-Defer-Length == 1` or reject with 400; otherwise
create the Upload at offset 0 in INITIAL with the declared length,
optionally stamping an expiry (`expiresAt` models
`timezone.now() + TUS_UPLOAD_EXPIRES` when that setting is not None),
and respond 201. -/
def create (maxSize : Int) (expiresAt : Option Nat)
    (req : CreateRequest) : CreateResult :=
  let upload_length := req.upload_length.getD (-1)
  if upload_length > maxSize then
    { status := 413, created := none }
  else if (upload_length = 0 ∨ upload_length < 0) ∧
          req.upload_defer_length.getD (-1) ≠ 1 then
    { status := 400, created := none }
  else
    let upload : Upload :=
      { upload_offset := 0, upload_length := upload_length,
        state := UState.initial, store := [], expires := expiresAt }
    { status := 201, created := some upload }

/-- Outcome of a Terminate request: HTTP status and the Upload Record as
it remains in the store, `none` when it was deleted. -/
structure DestroyResult where
  status : Nat
  remaining : Option Upload
deriving DecidableEq, Repr

/-- `TusTerminateMixin.destroy` (views.py:197-209): when the upload is
in SAVING answer 409 and leave the record untouched; otherwise delete it
and answer 204. -/
def destroy (upload : Upload) : DestroyResult :=
  if upload.state = UState.saving then
    { status := 409, remaining := some upload }
  else
    { status := 204, remaining := none }

/-- C1: a Patch whose client-supplied offset differs from the recorded
`upload_offset` answers 409 Conflict and leaves the Upload Record — its
offset, state and byte store — completely unchanged, and remains so under
any number `n` of repetitions of the same Patch. -/
theorem C1_offset_mismatch_rejected (ck : String → String → List Nat → Bool)
    (req : PatchRequest) (u : Upload)
    (h : req.uploadOffset ≠ u.upload_offset) (n : Nat) :
    (partial_update ck req u).status = 409 ∧
    (partial_update ck req u).upload = u ∧
    (fun v => (partial_update ck req v).upload)^[n] u = u := by
  have hstep : partial_update ck req u =
      { status := 409, upload := u, chunkStaged := false,
        chunkFileRemains := false, writeAttempted := false,
        signalFired := false } := by
    unfold partial_update
    simp [h]
  refine ⟨by rw [hstep], by rw [hstep], ?_⟩
  induction n with
  | zero => rfl
  | succ k ih =>
    rw [Function.iterate_succ_apply]
    simpa [hstep] using ih

/-- Witness for C1 at a concrete mismatching Patch. -/
theorem C1_offset_mismatch_rejected_witness :
    (partial_update (fun _ _ _ => true)
      { contentType := "application/upload_offset+octet-stream",
        uploadOffset := 5, body := [1, 2], checksum := none,
        contentLength := some 2, stagingFails := false, writeFails := false }
      { upload_offset := 0, upload_length := 10, state := UState.initial,
        store := [], expires := none }).status = 409 ∧
    (partial_update (fun _ _ _ => true)
      { contentType := "application/upload_offset+octet-stream",
        uploadOffset := 5, body := [1, 2], checksum := none,
        contentLength := some 2, stagingFails := false, writeFails := false }
      { upload_offset := 0, upload_length := 10, state := UState.initial,
        store := [], expires := none }).upload =
      { upload_offset := 0, upload_length := 10, state := UState.initial,
        store := [], expires := none } :=
  ⟨(C1_offset_mismatch_rejected _ _ _ (by decide) 0).1,
   (C1_offset_mismatch_rejected _ _ _ (by decide) 0).2.1⟩

/-- C3: a Patch with a supported checksum algorithm whose digest does not
match the staged chunk answers 460, deletes the staged chunk file, never
attempts the commit, and leaves `upload_offset` and the byte store
unchanged. -/
theorem C3_checksum_mismatch_460 (ck : String → String → List Nat → Bool)
    (req : PatchRequest) (u : Upload) (alg digest : String)
    (hoff : req.uploadOffset = u.upload_offset)
    (hstage : req.stagingFails = false)
    (hck : req.checksum = some (alg, digest))
    (halg : alg ∈ tus_api_checksum_algorithms)
    (hbad : ck alg digest req.body = false) :
    (partial_update ck req u).status = 460 ∧
    (partial_update ck req u).chunkStaged = true ∧
    (partial_update ck req u).chunkFileRemains = false ∧
    (partial_update ck req u).writeAttempted = false ∧
    (partial_update ck req u).upload.upload_offset = u.upload_offset ∧
    (partial_update ck req u).upload.store = u.store := by
  unfold partial_update
  simp only [hoff, ne_eq, not_true_eq_false, if_false, hstage, hck, halg,
    not_false_eq_true, hbad, Bool.false_eq_true, ite_false, ite_true]
  split <;> simp [start_receiving]

/-- Witness for C3 at a concrete mismatching checksum. -/
theorem C3_checksum_mismatch_460_witness :
    (partial_update (fun _ _ _ => false)
      { contentType := "application/upload_offset+octet-stream",
        uploadOffset := 0, body := [9], checksum := some ("sha1", "deadbeef"),
        contentLength := some 1, stagingFails := false, writeFails := false }
      { upload_offset := 0, upload_length := 4, state := UState.initial,
        store := [], expires := none }).status = 460 ∧
    (partial_update (fun _ _ _ => false)
      { contentType := "application/upload_offset+octet-stream",
        uploadOffset := 0, body := [9], checksum := some ("sha1", "deadbeef"),
        contentLength := some 1, stagingFails := false, writeFails := false }
      { upload_offset := 0, upload_length := 4, state := UState.initial,
        store := [], expires := none }).upload.upload_offset = 0 :=
  ⟨(C3_checksum_mismatch_460 _ _ _ "sha1" "deadbeef" (by decide) (by decide)
      (by decide) (by decide) (by decide)).1,
   (C3_checksum_mismatch_460 _ _ _ "sha1" "deadbeef" (by decide) (by decide)
      (by decide) (by decide) (by decide)).2.2.2.2.1⟩

/-- C4: a Patch naming a checksum algorithm outside the advertised set
answers 400, removes the staged chunk file, never attempts the commit via
`write_data`, and leaves the byte store and offset unchanged. -/
theorem C4_unsupported_algorithm_400 (ck : String → String → List Nat → Bool)
    (req : PatchRequest) (u : Upload) (alg digest : String)
    (hoff : req.uploadOffset = u.upload_offset)
    (hstage : req.stagingFails = false)
    (hck : req.checksum = some (alg, digest))
    (halg : alg ∉ tus_api_checksum_algorithms) :
    (partial_update ck req u).status = 400 ∧
    (partial_update ck req u).chunkStaged = true ∧
    (partial_update ck req u).chunkFileRemains = false ∧
    (partial_update ck req u).writeAttempted = false ∧
    (partial_update ck req u).upload.upload_offset = u.upload_offset ∧
    (partial_update ck req u).upload.store = u.store := by
  unfold partial_update
  simp only [hoff, ne_eq, not_true_eq_false, if_false, hstage, hck, halg,
    not_false_eq_true, Bool.false_eq_true, ite_false, ite_true]
  split <;> simp [start_receiving]

/-- Witness for C4: Scenario 5's "md5" is not advertised. -/
theorem C4_unsupported_algorithm_400_witness :
    (partial_update (fun _ _ _ => true)
      { contentType := "application/upload_offset+octet-stream",
        uploadOffset := 0, body := [9], checksum := some ("md5", "abc"),
        contentLength := some 1, stagingFails := false, writeFails := false }
      { upload_offset := 0, upload_length := 4, state := UState.receiving,
        store := [3], expires := none }).status = 400 ∧
    (partial_update (fun _ _ _ => true)
      { contentType := "application/upload_offset+octet-stream",
        uploadOffset := 0, body := [9], checksum := some ("md5", "abc"),
        contentLength := some 1, stagingFails := false, writeFails := false }
      { upload_offset := 0, upload_length := 4, state := UState.receiving,
        store := [3], expires := none }).upload.store = [3] :=
  ⟨(C4_unsupported_algorithm_400 _ _ _ "md5" "abc" (by decide) (by decide)
      (by decide) (by decide)).1,
   (C4_unsupported_algorithm_400 _ _ _ "md5" "abc" (by decide) (by decide)
      (by decide) (by decide)).2.2.2.2.2⟩

/-- C2: the code contradicts the claim.  `validate_content_type` builds a
400 response for the Content-Type "text/plain", yet `partial_update`
discards that response (views.py:126 neither returns nor raises it), so
the very same Patch is staged, committed and answered 204 with the chunk
written to the byte store. -/
theorem C2_content_type_check_discarded :
    validate_content_type
      { contentType := "text/plain", uploadOffset := 0, body := [7, 8],
        checksum := none, contentLength := some 2, stagingFails := false,
        writeFails := false } = some 400 ∧
    (partial_update (fun _ _ _ => true)
      { contentType := "text/plain", uploadOffset := 0, body := [7, 8],
        checksum := none, contentLength := some 2, stagingFails := false,
        writeFails := false }
      { upload_offset := 0, upload_length := 10, state := UState.initial,
        store := [], expires := none }).status = 204 ∧
    (partial_update (fun _ _ _ => true)
      { contentType := "text/plain", uploadOffset := 0, body := [7, 8],
        checksum := none, contentLength := some 2, stagingFails := false,
        writeFails := false }
      { upload_offset := 0, upload_length := 10, state := UState.initial,
        store := [], expires := none }).upload.store = [7, 8] := by
  refine ⟨by decide, by decide, by decide⟩

/-- C5 counterexample: a Create with `upload_length = 0` and no
defer-length signal is answered 400 with no Upload Record created — not
201 as claimed.  Python's `not upload_length` is true at zero, so zero
falls into the defer-length branch (views.py:90). -/
theorem C5_zero_length_counterexample :
    (create 1073741824 none
      { upload_length := some 0, upload_defer_length := none,
        upload_metadata := [] }).status = 400 ∧
    (create 1073741824 none
      { upload_length := some 0, upload_defer_length := none,
        upload_metadata := [] }).created = none ∧
    (create 1073741824 none
      { upload_length := some 0, upload_defer_length := none,
        upload_metadata := [] }).status ≠ 201 := by
  refine ⟨by decide, by decide, by decide⟩

/-- C5 amended: a Create declaring `upload_length = 0` without the
defer-length signal set to 1 is rejected with 400 and creates no Upload
Record, exactly like an absent length (for any non-negative configured
maximum). -/
theorem C5_zero_length_needs_defer (maxSize : Int) (e : Option Nat)
    (req : CreateRequest) (hmax : 0 ≤ maxSize)
    (hzero : req.upload_length = some 0)
    (hdefer : req.upload_defer_length.getD (-1) ≠ 1) :
    (create maxSize e req).status = 400 ∧
    (create maxSize e req).created = none := by
  unfold create
  rw [hzero]
  simp only [Option.getD_some]
  rw [if_neg (by omega)]
  rw [if_pos ⟨Or.inl (by trivial), hdefer⟩]
  exact ⟨rfl, rfl⟩

/-- Witness for the amended C5 at a concrete zero-length Create. -/
theorem C5_zero_length_needs_defer_witness :
    (create 100 none
      { upload_length := some 0, upload_defer_length := some 0,
        upload_metadata := [("filename", "a.txt")] }).status = 400 ∧
    (create 100 none
      { upload_length := some 0, upload_defer_length := some 0,
        upload_metadata := [("filename", "a.txt")] }).created = none :=
  C5_zero_length_needs_defer 100 none _ (by decide) (by decide) (by decide)

/-- C6 counterexample: a successful commit whose new offset (1) is below
the declared length (10) answers 204 with the commit attempted, yet fires
no notification — `signals.received` is sent only inside the
`upload_length == upload_offset` branch (views.py:177-179), not on every
successful commit as claimed. -/
theorem C6_no_signal_below_length :
    (partial_update (fun _ _ _ => true)
      { contentType := "application/upload_offset+octet-stream",
        uploadOffset := 0, body := [1], checksum := none,
        contentLength := some 1, stagingFails := false, writeFails := false }
      { upload_offset := 0, upload_length := 10, state := UState.initial,
        store := [], expires := none }).status = 204 ∧
    (partial_update (fun _ _ _ => true)
      { contentType := "application/upload_offset+octet-stream",
        uploadOffset := 0, body := [1], checksum := none,
        contentLength := some 1, stagingFails := false, writeFails := false }
      { upload_offset := 0, upload_length := 10, state := UState.initial,
        store := [], expires := none }).writeAttempted = true ∧
    (partial_update (fun _ _ _ => true)
      { contentType := "application/upload_offset+octet-stream",
        uploadOffset := 0, body := [1], checksum := none,
        contentLength := some 1, stagingFails := false, writeFails := false }
      { upload_offset := 0, upload_length := 10, state := UState.initial,
        store := [], expires := none }).signalFired = false := by
  refine ⟨by decide, by decide, by decide⟩

/-- C6 amended: on a successful chunk commit (204) — with no checksum
header or with a supported algorithm whose digest matches — the
notification is fired exactly when the resulting offset equals the
declared length; it signals upload completion, not chunk receipt. -/
theorem C6_signal_iff_complete (ck : String → String → List Nat → Bool)
    (req : PatchRequest) (u : Upload)
    (hoff : req.uploadOffset = u.upload_offset)
    (hstage : req.stagingFails = false)
    (hck : req.checksum = none ∨ ∃ alg digest,
      req.checksum = some (alg, digest) ∧
      alg ∈ tus_api_checksum_algorithms ∧ ck alg digest req.body = true)
    (hwrite : req.writeFails = false) :
    (partial_update ck req u).status = 204 ∧
    ((partial_update ck req u).signalFired = true ↔
      (partial_update ck req u).upload.upload_length =
        ((partial_update ck req u).upload.upload_offset : Int)) := by
  rcases hck with hnone | ⟨alg, digest, hsome, halg, hokck⟩
  · simp only [partial_update, commit_chunk, write_data, hoff, ne_eq,
      not_true_eq_false, if_false, hstage, hnone, hwrite, Bool.false_eq_true,
      ite_false]
    split <;> simp [decide_eq_true_iff]
  · simp only [partial_update, commit_chunk, write_data, hoff, ne_eq,
      not_true_eq_false, if_false, hstage, hsome, halg, hokck,
      not_false_eq_true, not_true_eq_false, Bool.false_eq_true, ite_false,
      ite_true, hwrite]
    split <;> simp [decide_eq_true_iff]

/-- Witness for the amended C6 at a concrete completing commit that
carries a supported, matching checksum header. -/
theorem C6_signal_iff_complete_witness :
    (partial_update (fun _ _ _ => true)
      { contentType := "application/upload_offset+octet-stream",
        uploadOffset := 0, body := [1, 2], checksum := some ("sha1", "ok"),
        contentLength := some 2, stagingFails := false, writeFails := false }
      { upload_offset := 0, upload_length := 2, state := UState.initial,
        store := [], expires := none }).status = 204 ∧
    ((partial_update (fun _ _ _ => true)
      { contentType := "application/upload_offset+octet-stream",
        uploadOffset := 0, body := [1, 2], checksum := some ("sha1", "ok"),
        contentLength := some 2, stagingFails := false, writeFails := false }
      { upload_offset := 0, upload_length := 2, state := UState.initial,
        store := [], expires := none }).signalFired = true ↔
     (partial_update (fun _ _ _ => true)
      { contentType := "application/upload_offset+octet-stream",
        uploadOffset := 0, body := [1, 2], checksum := some ("sha1", "ok"),
        contentLength := some 2, stagingFails := false, writeFails := false }
      { upload_offset := 0, upload_length := 2, state := UState.initial,
        store := [], expires := none }).upload.upload_length =
       ((partial_update (fun _ _ _ => true)
      { contentType := "application/upload_offset+octet-stream",
        uploadOffset := 0, body := [1, 2], checksum := some ("sha1", "ok"),
        contentLength := some 2, stagingFails := false, writeFails := false }
      { upload_offset := 0, upload_length := 2, state := UState.initial,
        store := [], expires := none }).upload.upload_offset : Int)) :=
  C6_signal_iff_complete _ _ _ (by decide) (by decide)
    (Or.inr ⟨"sha1", "ok", by decide, by decide, by decide⟩) (by decide)

/-- Helper: the commit deletes the staged chunk file on both of its
exits, the `finally` of views.py:170-171. -/
theorem commit_chunk_file_removed (u : Upload) (chunk : List Nat)
    (cs : Nat) (f : Bool) :
    (commit_chunk u chunk cs f).chunkFileRemains = false := by
  unfold commit_chunk
  split <;> rfl

/-- Helper: on no path out of `partial_update` does a staged chunk file
survive — every error branch calls `os.remove` and the commit removes it
in a `finally`. -/
theorem patch_chunk_file_never_remains (ck : String → String → List Nat → Bool)
    (req : PatchRequest) (u : Upload) :
    (partial_update ck req u).chunkFileRemains = false := by
  simp only [partial_update]
  repeat' split <;> try rfl
  all_goals apply commit_chunk_file_removed

/-- C7: when the commit write (`write_data`) raises, the handler answers
400 with the offset and byte store at their pre-chunk values; and on
every exit of the commit, success or failure, the staged chunk file is
deleted (the `finally` of views.py:170-171). -/
theorem C7_write_failure_surfaced (ck : String → String → List Nat → Bool)
    (req : PatchRequest) (u : Upload)
    (hoff : req.uploadOffset = u.upload_offset)
    (hstage : req.stagingFails = false)
    (hck : req.checksum = none ∨ ∃ alg digest,
      req.checksum = some (alg, digest) ∧
      alg ∈ tus_api_checksum_algorithms ∧ ck alg digest req.body = true) :
    (req.writeFails = true →
      (partial_update ck req u).status = 400 ∧
      (partial_update ck req u).upload.upload_offset = u.upload_offset ∧
      (partial_update ck req u).upload.store = u.store) ∧
    ((partial_update ck req u).writeAttempted = true →
      (partial_update ck req u).chunkFileRemains = false) := by
  constructor
  · intro hw
    have hcom : ∀ up : Upload,
        commit_chunk up req.body (req.contentLength.getD 102400) req.writeFails =
        { status := 400, upload := up, chunkStaged := true,
          chunkFileRemains := false, writeAttempted := true,
          signalFired := false } := by
      intro up
      simp [commit_chunk, write_data, hw]
    rcases hck with hnone | ⟨alg, digest, hsome, halg, hokck⟩
    · simp only [partial_update, hoff, ne_eq, not_true_eq_false, if_false,
        hstage, hnone, Bool.false_eq_true, ite_false, hcom]
      split <;> simp [start_receiving]
    · simp only [partial_update, hoff, ne_eq, not_true_eq_false, if_false,
        hstage, hsome, halg, hokck, not_false_eq_true, not_true_eq_false,
        Bool.false_eq_true, ite_false, ite_true, hcom]
      split <;> simp [start_receiving]
  · intro _
    exact patch_chunk_file_never_remains ck req u

/-- Witness for C7 at a concrete failing commit. -/
theorem C7_write_failure_surfaced_witness :
    (partial_update (fun _ _ _ => true)
      { contentType := "application/upload_offset+octet-stream",
        uploadOffset := 4, body := [1], checksum := none,
        contentLength := some 1, stagingFails := false, writeFails := true }
      { upload_offset := 4, upload_length := 10, state := UState.receiving,
        store := [0, 0, 0, 0], expires := none }).status = 400 ∧
    (partial_update (fun _ _ _ => true)
      { contentType := "application/upload_offset+octet-stream",
        uploadOffset := 4, body := [1], checksum := none,
        contentLength := some 1, stagingFails := false, writeFails := true }
      { upload_offset := 4, upload_length := 10, state := UState.receiving,
        store := [0, 0, 0, 0], expires := none }).upload.upload_offset = 4 ∧
    (partial_update (fun _ _ _ => true)
      { contentType := "application/upload_offset+octet-stream",
        uploadOffset := 4, body := [1], checksum := none,
        contentLength := some 1, stagingFails := false, writeFails := true }
      { upload_offset := 4, upload_length := 10, state := UState.receiving,
        store := [0, 0, 0, 0], expires := none }).chunkFileRemains = false := by
  have h := C7_write_failure_surfaced (fun _ _ _ => true)
    { contentType := "application/upload_offset+octet-stream",
      uploadOffset := 4, body := [1], checksum := none,
      contentLength := some 1, stagingFails := false, writeFails := true }
    { upload_offset := 4, upload_length := 10, state := UState.receiving,
      store := [0, 0, 0, 0], expires := none }
    (by decide) (by decide) (Or.inl (by decide))
  exact ⟨(h.1 (by decide)).1, (h.1 (by decide)).2.1, h.2 (by decide)⟩

/-- C8: a Create whose declared length exceeds the configured maximum is
answered 413 and no Upload Record is created. -/
theorem C8_over_max_413 (maxSize : Int) (e : Option Nat)
    (req : CreateRequest)
    (h : req.upload_length.getD (-1) > maxSize) :
    (create maxSize e req).status = 413 ∧
    (create maxSize e req).created = none := by
  unfold create
  rw [if_pos h]
  exact ⟨rfl, rfl⟩

/-- Witness for C8: Scenario 3, declared length = configured max + 1. -/
theorem C8_over_max_413_witness :
    (create 10 none
      { upload_length := some 11, upload_defer_length := none,
        upload_metadata := [] }).status = 413 ∧
    (create 10 none
      { upload_length := some 11, upload_defer_length := none,
        upload_metadata := [] }).created = none :=
  C8_over_max_413 10 none _ (by decide)

/-- C9: Terminate on an upload in SAVING answers 409 and leaves the
record fully intact; in any other state the record is deleted and the
answer is 204. -/
theorem C9_terminate_saving_guard (u : Upload) :
    (destroy u).status = (if u.state = UState.saving then 409 else 204) ∧
    (destroy u).remaining =
      (if u.state = UState.saving then some u else none) := by
  unfold destroy
  by_cases h : u.state = UState.saving <;> simp [h]

/-- C10: a Patch on an INITIAL upload whose staging fails answers 400,
yet the INITIAL→RECEIVING transition was saved before staging and is not
rolled back — the returned record is in RECEIVING with offset and byte
store untouched (views.py:142-150). -/
theorem C10_staging_failure_keeps_receiving
    (ck : String → String → List Nat → Bool)
    (req : PatchRequest) (u : Upload)
    (hinit : u.state = UState.initial)
    (hoff : req.uploadOffset = u.upload_offset)
    (hstage : req.stagingFails = true) :
    (partial_update ck req u).status = 400 ∧
    (partial_update ck req u).upload.state = UState.receiving ∧
    (partial_update ck req u).upload.upload_offset = u.upload_offset ∧
    (partial_update ck req u).upload.store = u.store := by
  unfold partial_update
  simp [hoff, hinit, hstage, start_receiving]

/-- Witness for C10 at a concrete staging failure. -/
theorem C10_staging_failure_keeps_receiving_witness :
    (partial_update (fun _ _ _ => true)
      { contentType := "application/upload_offset+octet-stream",
        uploadOffset := 0, body := [1], checksum := none,
        contentLength := some 1, stagingFails := true, writeFails := false }
      { upload_offset := 0, upload_length := 8, state := UState.initial,
        store := [], expires := none }).status = 400 ∧
    (partial_update (fun _ _ _ => true)
      { contentType := "application/upload_offset+octet-stream",
        uploadOffset := 0, body := [1], checksum := none,
        contentLength := some 1, stagingFails := true, writeFails := false }
      { upload_offset := 0, upload_length := 8, state := UState.initial,
        store := [], expires := none }).upload.state = UState.receiving :=
  ⟨(C10_staging_failure_keeps_receiving _ _ _ (by decide) (by decide)
      (by decide)).1,
   (C10_staging_failure_keeps_receiving _ _ _ (by decide) (by decide)
      (by decide)).2.1⟩

end DrfTus
